import Mathlib

/-!
# netebpfext: program information NPI provider and hook client rundown

A shallow embedding of `src/netebpfext/net_ebpf_ext_prog_info_provider.c` and of the parts of
`src/netebpfext/net_ebpf_ext_hook_provider.h` that the verified properties mention.

* Pointers are natural numbers, `NULL` is `0`.
* Memory is typed: one partial map per object type. Reading or writing through a pointer that
  does not address an object of the expected type is a fault, and a faulting run is `none`.
* The non-paged pool is the partial map `State.pool`; its domain is the set of live allocations.
* Every call of an operating-system routine and every store through an output pointer is
  appended to `State.trace`, so that "exactly once", "never" and "after" are statements about
  a list of events.
* The operating-system routines themselves (`ExAllocatePoolUninitialized`, `NmrRegisterProvider`,
  `NmrDeregisterProvider`) are not part of the repository: what they answer is a parameter
  (`Kernel`), and the theorems hold for every such answer.
-/

namespace NetEbpfExt

/-! ## Machine-level types -/

/-- A C pointer value. -/
abbrev Ptr := Nat

/-- The null pointer. -/
def NULL : Ptr := 0

/-- The type `HANDLE` is `void*`. -/
abbrev HANDLE := Ptr

/-- A `GUID`, as the 128-bit number it stores. The code only ever copies GUIDs. -/
abbrev GUID := Nat

/-- The type `NTSTATUS` is a signed 32-bit integer (`LONG`). -/
abbrev NTSTATUS := Int

/-- The status `STATUS_SUCCESS`, `0x00000000`. -/
def STATUS_SUCCESS : NTSTATUS := 0

/-- The status `STATUS_PENDING`, `0x00000103`. -/
def STATUS_PENDING : NTSTATUS := 0x103

/-- The status `STATUS_INVALID_PARAMETER`, `0xC000000D` read as a signed 32-bit integer. -/
def STATUS_INVALID_PARAMETER : NTSTATUS := 0xC000000D - 2 ^ 32

/-- The status `STATUS_NO_MEMORY`, `0xC0000017` read as a signed 32-bit integer. -/
def STATUS_NO_MEMORY : NTSTATUS := 0xC0000017 - 2 ^ 32

/-- The test `NT_SUCCESS(Status)` is `((NTSTATUS)(Status)) >= 0`. -/
def NT_SUCCESS (status : NTSTATUS) : Bool := decide (0 ≤ status)

/-! ## Data model of `net_ebpf_ext_prog_info_provider.c` -/

/-- The per client binding context for the program information NPI provider
(`net_ebpf_extension_program_info_client_t`). -/
structure net_ebpf_extension_program_info_client_t where
  /-- NMR binding handle. -/
  nmr_binding_handle : HANDLE
  /-- NMR module Id. -/
  client_module_id : GUID
  deriving DecidableEq, Repr

/-- The functions of this file whose address is stored in a dispatch slot. -/
inductive FunctionPointer where
  /-- A null function pointer. -/
  | null
  /-- The address `&net_ebpf_extension_program_info_provider_attach_client`. -/
  | program_info_provider_attach_client
  /-- The address `&net_ebpf_extension_program_info_provider_detach_client`. -/
  | program_info_provider_detach_client
  deriving DecidableEq, Repr

/-- The structure `NPI_REGISTRATION_INSTANCE` (Windows header `netioddk.h`). -/
structure NPI_REGISTRATION_INSTANCE where
  Version : Nat
  Size : Nat
  /-- Member `PNPIID NpiId`: pointer to the GUID of the network programming interface. -/
  NpiId : Ptr
  /-- Member `PNPI_MODULEID ModuleId`. -/
  ModuleId : Ptr
  Number : Nat
  /-- Member `const void* NpiSpecificCharacteristics`. -/
  NpiSpecificCharacteristics : Ptr
  deriving DecidableEq, Repr

/-- The structure `NPI_PROVIDER_CHARACTERISTICS` (Windows header `netioddk.h`). -/
structure NPI_PROVIDER_CHARACTERISTICS where
  Version : Nat
  Length : Nat
  ProviderAttachClient : FunctionPointer
  ProviderDetachClient : FunctionPointer
  ProviderCleanupBindingContext : FunctionPointer
  ProviderRegistrationInstance : NPI_REGISTRATION_INSTANCE
  deriving DecidableEq, Repr

/-- The program information NPI provider (`net_ebpf_extension_program_info_provider_t`). -/
structure net_ebpf_extension_program_info_provider_t where
  /-- NPI Provider characteristics. -/
  characteristics : NPI_PROVIDER_CHARACTERISTICS
  /-- NMR binding handle. -/
  nmr_provider_handle : HANDLE
  deriving DecidableEq, Repr

/-- The structure `NPI_MODULEID` (Windows header); only the `Guid` member of its union is read. -/
structure NPI_MODULEID where
  Length : Nat
  Guid : GUID
  deriving DecidableEq, Repr

/-- The structure `ebpf_extension_data_t`; the code reads its `data` pointer. -/
structure ebpf_extension_data_t where
  version : Nat
  size : Nat
  data : Ptr
  deriving DecidableEq, Repr

/-- The structure `ebpf_program_data_t`; the code reads its `program_info` pointer. -/
structure ebpf_program_data_t where
  program_info : Ptr
  deriving DecidableEq, Repr

/-- The structure `ebpf_program_type_descriptor_t`; the code writes its `program_type`. -/
structure ebpf_program_type_descriptor_t where
  program_type : GUID
  deriving DecidableEq, Repr

/-- The structure `ebpf_program_info_t`; the code reaches its `program_type_descriptor`. -/
structure ebpf_program_info_t where
  program_type_descriptor : ebpf_program_type_descriptor_t
  deriving DecidableEq, Repr

/-- The structure `net_ebpf_extension_program_info_provider_parameters_t`, with the three members
`net_ebpf_extension_program_info_provider_register` reads. -/
structure net_ebpf_extension_program_info_provider_parameters_t where
  /-- Member `const ebpf_program_type_t* program_type`: pointer to the program type GUID. -/
  program_type : Ptr
  /-- Member `const NPI_MODULEID* provider_module_id`. -/
  provider_module_id : Ptr
  /-- Member `const ebpf_extension_data_t* provider_data`. -/
  provider_data : Ptr
  deriving DecidableEq, Repr

/-! ## Memory, output parameters and the event trace -/

/-- The content of one pool allocation. -/
inductive Block where
  /-- Fresh from `ExAllocatePoolUninitialized`: no defined content. -/
  | uninitialized
  /-- Holds a `net_ebpf_extension_program_info_client_t`. -/
  | client (c : net_ebpf_extension_program_info_client_t)
  /-- Holds a `net_ebpf_extension_program_info_provider_t`. -/
  | provider (p : net_ebpf_extension_program_info_provider_t)
  deriving DecidableEq, Repr

/-- The caller's variables that the output parameters of this file point to. Each output
parameter has a variable of its own: two output parameters never address the same variable. -/
inductive OutputLocation where
  /-- The `void*` that `provider_binding_context` of attach_client points to. -/
  | provider_binding_context
  /-- The `const void*` that `provider_dispatch` of attach_client points to. -/
  | provider_dispatch
  /-- The provider pointer that `provider_context` of register points to. -/
  | provider_context
  deriving DecidableEq, Repr

/-- The value of an output-pointer argument: `NULL`, or the address of the caller's variable. -/
inductive OutPtr where
  | null
  | valid
  deriving DecidableEq, Repr

/-- What the code does to the outside world, in the order it does it. -/
inductive Event where
  /-- A call of `ExAllocatePoolUninitialized` and the pointer it returned. -/
  | ExAllocatePoolUninitialized (result : Ptr)
  /-- A call of `ExFreePool(p)`. -/
  | ExFreePool (p : Ptr)
  /-- A call of `NmrRegisterProvider`: the characteristics read through the first argument,
  the provider context, and the status returned. -/
  | NmrRegisterProvider (characteristics : NPI_PROVIDER_CHARACTERISTICS) (context : Ptr)
      (status : NTSTATUS)
  /-- A call of `NmrDeregisterProvider(handle)` and the status returned. -/
  | NmrDeregisterProvider (handle : HANDLE) (status : NTSTATUS)
  /-- A call of `NmrWaitForProviderDeregisterComplete(handle)`. -/
  | NmrWaitForProviderDeregisterComplete (handle : HANDLE)
  /-- A store `*out = value` through an output parameter. -/
  | store (location : OutputLocation) (value : Ptr)
  deriving DecidableEq, Repr

/-- The state the code runs in. -/
structure State where
  /-- The live pool allocations and their content. -/
  pool : Ptr → Option Block
  /-- Caller memory holding GUIDs. -/
  guid : Ptr → Option GUID
  /-- Caller memory holding `NPI_MODULEID`s. -/
  module_id : Ptr → Option NPI_MODULEID
  /-- Caller memory holding `NPI_REGISTRATION_INSTANCE`s. -/
  registration_instance : Ptr → Option NPI_REGISTRATION_INSTANCE
  /-- Caller memory holding `ebpf_extension_data_t`s. -/
  extension_data : Ptr → Option ebpf_extension_data_t
  /-- Caller memory holding `ebpf_program_data_t`s. -/
  program_data : Ptr → Option ebpf_program_data_t
  /-- Caller memory holding `ebpf_program_info_t`s. -/
  program_info : Ptr → Option ebpf_program_info_t
  /-- The values of the caller's output variables. -/
  output : OutputLocation → Ptr
  /-- The events so far, oldest first. -/
  trace : List Event

/-- What `NmrRegisterProvider` answers: its status, and the handle it stores through its third
argument (`none` when it stores nothing). -/
structure RegisterReply where
  status : NTSTATUS
  handle : Option HANDLE
  deriving DecidableEq, Repr

/-- The answers of the operating-system routines the code calls. -/
structure Kernel where
  /-- The pointer `ExAllocatePoolUninitialized` returns; `NULL` when the allocation fails. -/
  ExAllocatePoolUninitialized : Ptr
  /-- The answer of `NmrRegisterProvider` to the characteristics and context passed. -/
  NmrRegisterProvider : NPI_PROVIDER_CHARACTERISTICS → Ptr → RegisterReply
  /-- The status `NmrDeregisterProvider` returns for a handle. -/
  NmrDeregisterProvider : HANDLE → NTSTATUS

/-- Append an event to the trace. -/
def State.log (s : State) (e : Event) : State :=
  { s with trace := s.trace ++ [e] }

/-- Set the content of the pool block at `p`. -/
def State.set_block (s : State) (p : Ptr) (b : Option Block) : State :=
  { s with pool := fun q => if q = p then b else s.pool q }

/-- Set the content of the `ebpf_program_info_t` at `p`. -/
def State.set_program_info (s : State) (p : Ptr) (v : ebpf_program_info_t) : State :=
  { s with program_info := fun q => if q = p then some v else s.program_info q }

/-- The store `*out = value` for an output parameter `out` addressing `location`. A store
through `NULL` faults. -/
def State.store (s : State) (out : OutPtr) (location : OutputLocation) (value : Ptr) :
    Option State :=
  match out with
  | OutPtr.null => none
  | OutPtr.valid =>
    some ({ s with output := fun l => if l = location then value else s.output l }.log
      (Event.store location value))

/-- The call `ExAllocatePoolUninitialized(NonPagedPoolNx, size, tag)`: returns the kernel's
answer; a non-NULL answer becomes a live block without defined content. -/
def ExAllocatePoolUninitialized (k : Kernel) (s : State) : Ptr × State :=
  let p := k.ExAllocatePoolUninitialized
  if p = NULL then (NULL, s.log (Event.ExAllocatePoolUninitialized NULL))
  else (p, (s.set_block p (some Block.uninitialized)).log (Event.ExAllocatePoolUninitialized p))

/-- The call `ExFreePool(p)`: the block at `p` stops being live. Freeing what is not a live
allocation faults. -/
def ExFreePool (p : Ptr) (s : State) : Option State :=
  match s.pool p with
  | none => none
  | some _ => some ((s.set_block p none).log (Event.ExFreePool p))

/-- The call `NmrDeregisterProvider(handle)`. -/
def NmrDeregisterProvider (k : Kernel) (handle : HANDLE) (s : State) : NTSTATUS × State :=
  let status := k.NmrDeregisterProvider handle
  (status, s.log (Event.NmrDeregisterProvider handle status))

/-- The call `NmrWaitForProviderDeregisterComplete(handle)`. -/
def NmrWaitForProviderDeregisterComplete (handle : HANDLE) (s : State) : State :=
  s.log (Event.NmrWaitForProviderDeregisterComplete handle)

/-- Read the client object at `p`. -/
def State.client (s : State) (p : Ptr) : Option net_ebpf_extension_program_info_client_t :=
  match s.pool p with
  | some (Block.client c) => some c
  | _ => none

/-- Read the provider object at `p`. -/
def State.provider (s : State) (p : Ptr) : Option net_ebpf_extension_program_info_provider_t :=
  match s.pool p with
  | some (Block.provider c) => some c
  | _ => none

/-- The set of live allocations. -/
def State.live (s : State) : Set Ptr := { p | s.pool p ≠ none }

/-! ## The functions of `net_ebpf_ext_prog_info_provider.c` -/

/-- The `Exit:` label of `net_ebpf_extension_program_info_provider_attach_client`. -/
def attach_client_Exit (status : NTSTATUS) (program_info_client : Ptr)
    (provider_binding_context : OutPtr) (s : State) : Option (NTSTATUS × State) :=
  if NT_SUCCESS status then do
    -- *provider_binding_context = program_info_client; program_info_client = NULL;
    let s ← s.store provider_binding_context OutputLocation.provider_binding_context
      program_info_client
    pure (status, s)
  else if program_info_client ≠ NULL then do
    -- if (program_info_client) ExFreePool(program_info_client);
    let s ← ExFreePool program_info_client s
    pure (status, s)
  else
    pure (status, s)

/-- Callback invoked when an eBPF Program Information NPI client attaches
(`net_ebpf_extension_program_info_provider_attach_client`). -/
def net_ebpf_extension_program_info_provider_attach_client (k : Kernel)
    (nmr_binding_handle : HANDLE) (provider_context : Ptr) (client_registration_instance : Ptr)
    (client_binding_context : Ptr) (client_dispatch : Ptr)
    (provider_binding_context : OutPtr) (provider_dispatch : OutPtr) (s : State) :
    Option (NTSTATUS × State) :=
  -- UNREFERENCED_PARAMETER(provider_context), (client_dispatch), (client_binding_context)
  let _ := provider_context
  let _ := client_dispatch
  let _ := client_binding_context
  if provider_binding_context = OutPtr.null ∨ provider_dispatch = OutPtr.null then
    -- status = STATUS_INVALID_PARAMETER; goto Exit;   (program_info_client is still NULL)
    attach_client_Exit STATUS_INVALID_PARAMETER NULL provider_binding_context s
  else do
    -- *provider_binding_context = NULL; *provider_dispatch = NULL;
    let s ← s.store provider_binding_context OutputLocation.provider_binding_context NULL
    let s ← s.store provider_dispatch OutputLocation.provider_dispatch NULL
    let (program_info_client, s) := ExAllocatePoolUninitialized k s
    if program_info_client = NULL then
      -- status = STATUS_NO_MEMORY; goto Exit;
      attach_client_Exit STATUS_NO_MEMORY program_info_client provider_binding_context s
    else do
      -- memset(program_info_client, 0, sizeof(net_ebpf_extension_program_info_client_t));
      let s := s.set_block program_info_client
        (some (Block.client { nmr_binding_handle := NULL, client_module_id := 0 }))
      -- program_info_client->nmr_binding_handle = nmr_binding_handle;
      let c ← s.client program_info_client
      let s := s.set_block program_info_client
        (some (Block.client { c with nmr_binding_handle := nmr_binding_handle }))
      -- program_info_client->client_module_id = client_registration_instance->ModuleId->Guid;
      let registration_instance ← s.registration_instance client_registration_instance
      let module_id ← s.module_id registration_instance.ModuleId
      let c ← s.client program_info_client
      let s := s.set_block program_info_client
        (some (Block.client { c with client_module_id := module_id.Guid }))
      attach_client_Exit STATUS_SUCCESS program_info_client provider_binding_context s

/-- Callback invoked when a Program Information NPI client detaches
(`net_ebpf_extension_program_info_provider_detach_client`). -/
def net_ebpf_extension_program_info_provider_detach_client (provider_binding_context : Ptr)
    (s : State) : Option (NTSTATUS × State) :=
  let status := STATUS_SUCCESS
  if provider_binding_context ≠ NULL then do
    let s ← ExFreePool provider_binding_context s
    pure (status, s)
  else
    pure (status, s)

/-- Unregister the program information NPI provider
(`net_ebpf_extension_program_info_provider_unregister`). -/
def net_ebpf_extension_program_info_provider_unregister (k : Kernel) (provider_context : Ptr)
    (s : State) : Option State :=
  if provider_context ≠ NULL then do
    -- NTSTATUS status = NmrDeregisterProvider(provider_context->nmr_provider_handle);
    let provider ← s.provider provider_context
    let (status, s) := NmrDeregisterProvider k provider.nmr_provider_handle s
    -- if (status == STATUS_PENDING) NmrWaitForProviderDeregisterComplete(...);
    let provider ← s.provider provider_context
    let s := if status = STATUS_PENDING then
        NmrWaitForProviderDeregisterComplete provider.nmr_provider_handle s
      else s
    ExFreePool provider_context s
  else
    pure s

/-- The `Exit:` label of `net_ebpf_extension_program_info_provider_register`. -/
def register_Exit (k : Kernel) (status : NTSTATUS) (local_provider_context : Ptr) (s : State) :
    Option (NTSTATUS × State) :=
  if !NT_SUCCESS status then do
    let s ← net_ebpf_extension_program_info_provider_unregister k local_provider_context s
    pure (status, s)
  else
    pure (status, s)

/-- Register the program information NPI provider
(`net_ebpf_extension_program_info_provider_register`). `parameters` is the structure the
first argument points to. `sizeof_characteristics` and `sizeof_registration_instance` are
`sizeof(NPI_PROVIDER_CHARACTERISTICS)` and `sizeof(NPI_REGISTRATION_INSTANCE)`. -/
def net_ebpf_extension_program_info_provider_register (k : Kernel)
    (sizeof_characteristics sizeof_registration_instance : Nat)
    (parameters : net_ebpf_extension_program_info_provider_parameters_t)
    (provider_context : OutPtr) (s : State) : Option (NTSTATUS × State) :=
  let extension_data := parameters.provider_data
  let (local_provider_context, s) := ExAllocatePoolUninitialized k s
  if local_provider_context = NULL then
    -- status = STATUS_NO_MEMORY; goto Exit;
    register_Exit k STATUS_NO_MEMORY local_provider_context s
  else do
    -- memset(local_provider_context, 0, sizeof(net_ebpf_extension_program_info_provider_t));
    let s := s.set_block local_provider_context (some (Block.provider
      { characteristics :=
          { Version := 0, Length := 0,
            ProviderAttachClient := FunctionPointer.null,
            ProviderDetachClient := FunctionPointer.null,
            ProviderCleanupBindingContext := FunctionPointer.null,
            ProviderRegistrationInstance :=
              { Version := 0, Size := 0, NpiId := NULL, ModuleId := NULL, Number := 0,
                NpiSpecificCharacteristics := NULL } },
        nmr_provider_handle := NULL }))
    -- characteristics = &local_provider_context->characteristics; ... seven member stores
    let provider ← s.provider local_provider_context
    let characteristics := provider.characteristics
    let characteristics := { characteristics with Length := sizeof_characteristics }
    let characteristics := { characteristics with
      ProviderAttachClient := FunctionPointer.program_info_provider_attach_client }
    let characteristics := { characteristics with
      ProviderDetachClient := FunctionPointer.program_info_provider_detach_client }
    let characteristics := { characteristics with ProviderRegistrationInstance :=
      { characteristics.ProviderRegistrationInstance with Size := sizeof_registration_instance } }
    let characteristics := { characteristics with ProviderRegistrationInstance :=
      { characteristics.ProviderRegistrationInstance with NpiId := parameters.program_type } }
    let characteristics := { characteristics with ProviderRegistrationInstance :=
      { characteristics.ProviderRegistrationInstance with
        ModuleId := parameters.provider_module_id } }
    let characteristics := { characteristics with ProviderRegistrationInstance :=
      { characteristics.ProviderRegistrationInstance with
        NpiSpecificCharacteristics := parameters.provider_data } }
    let s := s.set_block local_provider_context
      (some (Block.provider { provider with characteristics := characteristics }))
    -- program_data = (ebpf_program_data_t*)extension_data->data;
    let extension ← s.extension_data extension_data
    let program_data := extension.data
    -- program_data->program_info->program_type_descriptor.program_type =
    --     *(GUID*)parameters->program_type;
    let program_type ← s.guid parameters.program_type
    let data ← s.program_data program_data
    let program_info ← s.program_info data.program_info
    let s := s.set_program_info data.program_info
      { program_info with program_type_descriptor :=
        { program_info.program_type_descriptor with program_type := program_type } }
    -- status = NmrRegisterProvider(characteristics, local_provider_context,
    --     &local_provider_context->nmr_provider_handle);
    let provider ← s.provider local_provider_context
    let reply := k.NmrRegisterProvider provider.characteristics local_provider_context
    let s := s.log
      (Event.NmrRegisterProvider provider.characteristics local_provider_context reply.status)
    let s := match reply.handle with
      | some handle => s.set_block local_provider_context
          (some (Block.provider { provider with nmr_provider_handle := handle }))
      | none => s
    let status := reply.status
    if !NT_SUCCESS status then
      -- goto Exit;
      register_Exit k status local_provider_context s
    else do
      -- *provider_context = local_provider_context; local_provider_context = NULL;
      let s ← s.store provider_context OutputLocation.provider_context local_provider_context
      register_Exit k status NULL s


/-! ## Values the statements below refer to -/

/-- The provider characteristics that the member stores of
`net_ebpf_extension_program_info_provider_register` (lines 139 to 147) leave in the zeroed
provider object. -/
def registered_characteristics (sizeof_characteristics sizeof_registration_instance : Nat)
    (parameters : net_ebpf_extension_program_info_provider_parameters_t) :
    NPI_PROVIDER_CHARACTERISTICS :=
  { Version := 0
    Length := sizeof_characteristics
    ProviderAttachClient := FunctionPointer.program_info_provider_attach_client
    ProviderDetachClient := FunctionPointer.program_info_provider_detach_client
    ProviderCleanupBindingContext := FunctionPointer.null
    ProviderRegistrationInstance :=
      { Version := 0
        Size := sizeof_registration_instance
        NpiId := parameters.program_type
        ModuleId := parameters.provider_module_id
        Number := 0
        NpiSpecificCharacteristics := parameters.provider_data } }

/-- The events `net_ebpf_extension_program_info_provider_unregister` adds for a provider at
`provider_context` whose handle is `handle`. -/
def unregister_events (k : Kernel) (provider_context : Ptr) (handle : HANDLE) : List Event :=
  [Event.NmrDeregisterProvider handle (k.NmrDeregisterProvider handle)] ++
    (if k.NmrDeregisterProvider handle = STATUS_PENDING then
      [Event.NmrWaitForProviderDeregisterComplete handle]
    else []) ++
    [Event.ExFreePool provider_context]

/-- Registration parameters, for the concrete runs below. -/
def example_parameters : net_ebpf_extension_program_info_provider_parameters_t :=
  { program_type := 16, provider_module_id := 24, provider_data := 32 }

/-- A registered provider object with handle 7, for the concrete runs below. -/
def example_provider : net_ebpf_extension_program_info_provider_t :=
  { characteristics := registered_characteristics 72 40 example_parameters
    nmr_provider_handle := 7 }

/-- A state for the concrete runs below: a program type GUID at 16, a module id at 24, provider
data at 32 leading through 40 to the program information at 48, a client registration instance
at 56, one live provider at 64, output variables holding 57005, and no event yet. -/
def example_state : State :=
  { pool := fun p => if p = 64 then some (Block.provider example_provider) else none
    guid := fun p => if p = 16 then some 4660 else none
    module_id := fun p => if p = 24 then some { Length := 24, Guid := 119 } else none
    registration_instance := fun p =>
      if p = 56 then
        some { Version := 0, Size := 40, NpiId := 16, ModuleId := 24, Number := 0,
               NpiSpecificCharacteristics := 0 }
      else none
    extension_data := fun p => if p = 32 then some { version := 0, size := 8, data := 40 } else none
    program_data := fun p => if p = 40 then some { program_info := 48 } else none
    program_info := fun p =>
      if p = 48 then some { program_type_descriptor := { program_type := 0 } } else none
    output := fun _ => 57005
    trace := [] }

/-- A kernel in which everything succeeds: the allocation returns 128, the registration returns
`STATUS_SUCCESS` and the handle 200, a deregistration returns `STATUS_PENDING`. -/
def example_kernel : Kernel :=
  { ExAllocatePoolUninitialized := 128
    NmrRegisterProvider := fun _ _ => { status := STATUS_SUCCESS, handle := some 200 }
    NmrDeregisterProvider := fun _ => STATUS_PENDING }

/-- A kernel in which the allocation fails. -/
def example_kernel_no_memory : Kernel :=
  { example_kernel with ExAllocatePoolUninitialized := NULL }

/-- The status `STATUS_INSUFFICIENT_RESOURCES`, `0xC000009A` read as a signed 32-bit integer. -/
def STATUS_INSUFFICIENT_RESOURCES : NTSTATUS := 0xC000009A - 2 ^ 32

/-- The status `STATUS_INVALID_HANDLE`, `0xC0000008` read as a signed 32-bit integer. -/
def STATUS_INVALID_HANDLE : NTSTATUS := 0xC0000008 - 2 ^ 32

/-- A kernel in which the allocation returns 128 and the registrar refuses the registration with
`STATUS_INSUFFICIENT_RESOURCES` without storing a handle; a deregistration returns
`STATUS_INVALID_HANDLE`. -/
def example_kernel_register_fails : Kernel :=
  { ExAllocatePoolUninitialized := 128
    NmrRegisterProvider := fun _ _ => { status := STATUS_INSUFFICIENT_RESOURCES, handle := none }
    NmrDeregisterProvider := fun _ => STATUS_INVALID_HANDLE }

/-! ## Hook client rundown (`net_ebpf_ext_hook_provider.h`) -/

/-- Hook execution type (`net_ebpf_extension_hook_execution_t`). -/
inductive net_ebpf_extension_hook_execution_t where
  | EXECUTION_PASSIVE
  | EXECUTION_DISPATCH
  deriving DecidableEq, Repr

/-- Modelled from the spec: the Rundown Protection state embedded in each hook client, whose
layout lives in `net_ebpf_ext_hook_provider.c`, a file that is not among the sources. The spec
(section 3) gives it an active/inactive flag and a count of currently-entered callers. -/
structure net_ebpf_ext_hook_client_rundown_t where
  /-- The guard accepts new entrants. -/
  active : Bool
  /-- Number of callers that entered and did not leave yet. -/
  count : Nat
  deriving DecidableEq, Repr

/-- Modelled from the spec: the hook client (`net_ebpf_extension_hook_client_t`, declared in the
header and defined in the missing `net_ebpf_ext_hook_provider.c`), with the attributes section 3
lists: the owning provider, the registrar-assigned identifier, the attach parameters, the
provider-private data slot, the Rundown Protection state and the execution-level tag. -/
structure net_ebpf_extension_hook_client_t where
  provider_context : Ptr
  nmr_binding_handle : HANDLE
  client_data : Ptr
  provider_data : Ptr
  rundown : net_ebpf_ext_hook_client_rundown_t
  execution_type : net_ebpf_extension_hook_execution_t
  deriving DecidableEq, Repr

/-- Modelled from the spec: `enter(execution_level) -> bool` of section 4.1, whose code is in the
missing `net_ebpf_ext_hook_provider.c`: "if the guard is active, atomically increments the
entrant count and returns true; if inactive, returns false without side effects". -/
def rundown_enter (rundown : net_ebpf_ext_hook_client_rundown_t)
    (execution_level : net_ebpf_extension_hook_execution_t) :
    Bool × net_ebpf_ext_hook_client_rundown_t :=
  let _ := execution_level
  if rundown.active then (true, { rundown with count := rundown.count + 1 })
  else (false, rundown)

/-- Modelled from the spec: `net_ebpf_extension_hook_client_enter_rundown`, declared in the
header (lines 20 to 30) and defined in the missing `net_ebpf_ext_hook_provider.c`; section 4.2
describes it as "thin forwarding to the embedded Rundown Protection state". Returns the
function's result and the client afterwards. -/
def net_ebpf_extension_hook_client_enter_rundown (hook_client : net_ebpf_extension_hook_client_t)
    (execution_type : net_ebpf_extension_hook_execution_t) :
    Bool × net_ebpf_extension_hook_client_t :=
  let (entered, rundown) := rundown_enter hook_client.rundown execution_type
  (entered, { hook_client with rundown := rundown })

/-- A hook client with an active guard and two entrants, for the concrete runs below. -/
def example_hook_client : net_ebpf_extension_hook_client_t :=
  { provider_context := 64, nmr_binding_handle := 9, client_data := 32, provider_data := 0
    rundown := { active := true, count := 2 }
    execution_type := net_ebpf_extension_hook_execution_t.EXECUTION_DISPATCH }

/-- A kernel in which the registrar refuses the registration as in
`example_kernel_register_fails` and the deregistration that follows returns `STATUS_PENDING`. -/
def example_kernel_register_fails_pending : Kernel :=
  { example_kernel_register_fails with NmrDeregisterProvider := fun _ => STATUS_PENDING }

/-! ## Helper lemmas -/

theorem ite_absorb {α : Type} (c : Prop) [Decidable c] (a b d : α) :
    (if c then a else if c then b else d) = if c then a else d := by
  split <;> simp [*]

theorem pool_of_provider {s : State} {p : Ptr} {v : net_ebpf_extension_program_info_provider_t}
    (h : s.provider p = some v) : s.pool p = some (Block.provider v) := by
  unfold State.provider at h
  split at h
  · next c hc => simp at h; rw [hc, h]
  · simp at h

/-! ## Unregistration -/

/-- C1. `net_ebpf_extension_program_info_provider_unregister`, for a provider context that is
NULL or points to a live provider object: the call returns; for NULL the state is unchanged (no
registrar call, no free); otherwise the events it adds are, in this order, one
`NmrDeregisterProvider` on the provider's `nmr_provider_handle`, one
`NmrWaitForProviderDeregisterComplete` on that handle exactly when the deregistration returned
`STATUS_PENDING`, and last one `ExFreePool` of the provider, which is then no longer live while
every other allocation is untouched. -/
theorem unregister_deregisters_waits_then_frees (k : Kernel) (s : State) (provider_context : Ptr)
    (provider : net_ebpf_extension_program_info_provider_t)
    (h : provider_context ≠ NULL → s.provider provider_context = some provider) :
    ∃ s', net_ebpf_extension_program_info_provider_unregister k provider_context s = some s' ∧
      (provider_context = NULL → s' = s) ∧
      (provider_context ≠ NULL →
        s'.trace = s.trace ++
          ([Event.NmrDeregisterProvider provider.nmr_provider_handle
              (k.NmrDeregisterProvider provider.nmr_provider_handle)] ++
            (if k.NmrDeregisterProvider provider.nmr_provider_handle = STATUS_PENDING then
              [Event.NmrWaitForProviderDeregisterComplete provider.nmr_provider_handle]
            else []) ++
            [Event.ExFreePool provider_context]) ∧
        s'.pool provider_context = none ∧
        ∀ q, q ≠ provider_context → s'.pool q = s.pool q) := by
  by_cases hp : provider_context = NULL
  · exact ⟨s, by simp [net_ebpf_extension_program_info_provider_unregister, hp], fun _ => rfl,
      fun hn => absurd hp hn⟩
  · have hpool := pool_of_provider (h hp)
    by_cases hs : k.NmrDeregisterProvider provider.nmr_provider_handle = STATUS_PENDING
    · simp [net_ebpf_extension_program_info_provider_unregister, hp, NmrDeregisterProvider,
        NmrWaitForProviderDeregisterComplete, ExFreePool, State.provider, State.log,
        State.set_block, hpool, hs]
      intro q hq
      simp [hq]
    · simp [net_ebpf_extension_program_info_provider_unregister, hp, NmrDeregisterProvider,
        NmrWaitForProviderDeregisterComplete, ExFreePool, State.provider, State.log,
        State.set_block, hpool, hs]
      intro q hq
      simp [hq]

/-- Witness for C1: unregistering the live provider at 64, whose handle is 7, in a kernel whose
deregistration is pending, deregisters 7, waits for 7, then frees 64. -/
theorem unregister_deregisters_waits_then_frees_witness :
    example_state.provider 64 = some example_provider ∧
    ∃ s', net_ebpf_extension_program_info_provider_unregister example_kernel 64 example_state
        = some s' ∧
      s'.trace = [Event.NmrDeregisterProvider 7 STATUS_PENDING,
        Event.NmrWaitForProviderDeregisterComplete 7, Event.ExFreePool 64] ∧
      s'.pool 64 = none := by
  refine ⟨rfl, ?_⟩
  obtain ⟨s', h1, _, h3⟩ := unregister_deregisters_waits_then_frees example_kernel example_state
    64 example_provider (fun _ => rfl)
  have h4 := h3 (by decide)
  exact ⟨s', h1, by simpa [example_state, example_kernel, example_provider] using h4.1, h4.2.1⟩

/-! ## Registration -/

/-- The run of `net_ebpf_extension_program_info_provider_register` up to the answer of
`NmrRegisterProvider`, when the allocation succeeds and the parameters are readable: the state
in which the code tests the registrar's status. -/
theorem register_unfold (k : Kernel) (sc sr : Nat)
    (parameters : net_ebpf_extension_program_info_provider_parameters_t)
    (provider_context : OutPtr) (s : State)
    (extension : ebpf_extension_data_t) (data : ebpf_program_data_t)
    (program_info : ebpf_program_info_t) (program_type : GUID)
    (halloc : k.ExAllocatePoolUninitialized ≠ NULL)
    (hextension : s.extension_data parameters.provider_data = some extension)
    (hdata : s.program_data extension.data = some data)
    (hinfo : s.program_info data.program_info = some program_info)
    (htype : s.guid parameters.program_type = some program_type) :
    net_ebpf_extension_program_info_provider_register k sc sr parameters provider_context s =
      let p := k.ExAllocatePoolUninitialized
      let reply := k.NmrRegisterProvider (registered_characteristics sc sr parameters) p
      let s1 : State :=
        { s with
          pool := fun q => if q = p then
              some (Block.provider
                { characteristics := registered_characteristics sc sr parameters
                  nmr_provider_handle := reply.handle.getD NULL })
            else s.pool q
          program_info := fun q => if q = data.program_info then
              some { program_type_descriptor := { program_type := program_type } }
            else s.program_info q
          trace := s.trace ++ [Event.ExAllocatePoolUninitialized p,
            Event.NmrRegisterProvider (registered_characteristics sc sr parameters) p
              reply.status] }
      if !NT_SUCCESS reply.status then
        register_Exit k reply.status p s1
      else
        (s1.store provider_context OutputLocation.provider_context p).bind
          (fun s2 => register_Exit k reply.status NULL s2) := by
  simp only [net_ebpf_extension_program_info_provider_register, ExAllocatePoolUninitialized,
    halloc, if_false]
  simp only [State.provider, State.set_block, State.log, State.set_program_info, hextension,
    hdata, hinfo, htype, registered_characteristics, ite_absorb, if_true, Option.bind_eq_bind,
    Option.some_bind, List.append_assoc, List.singleton_append]
  generalize k.NmrRegisterProvider _ k.ExAllocatePoolUninitialized = reply
  rcases reply with ⟨status, handle⟩
  cases handle <;> simp [ite_absorb]

/-- C2. `net_ebpf_extension_program_info_provider_register`, when the allocation succeeds,
the parameters are readable and `NmrRegisterProvider` answers a failure status: the call
returns exactly that status, leaves the caller's output variables as they were and stores
through no output pointer, and the events it adds are the allocation, the registration attempt
and then those of unregistering the provider object, among them exactly one `ExFreePool` of
the provider object, which is no longer live afterwards. -/
theorem register_propagates_registrar_failure (k : Kernel) (sc sr : Nat)
    (parameters : net_ebpf_extension_program_info_provider_parameters_t)
    (provider_context : OutPtr) (s : State)
    (extension : ebpf_extension_data_t) (data : ebpf_program_data_t)
    (program_info : ebpf_program_info_t) (program_type : GUID)
    (halloc : k.ExAllocatePoolUninitialized ≠ NULL)
    (hextension : s.extension_data parameters.provider_data = some extension)
    (hdata : s.program_data extension.data = some data)
    (hinfo : s.program_info data.program_info = some program_info)
    (htype : s.guid parameters.program_type = some program_type)
    (hfail : NT_SUCCESS (k.NmrRegisterProvider (registered_characteristics sc sr parameters)
      k.ExAllocatePoolUninitialized).status = false) :
    ∃ s' events,
      net_ebpf_extension_program_info_provider_register k sc sr parameters provider_context s =
        some ((k.NmrRegisterProvider (registered_characteristics sc sr parameters)
          k.ExAllocatePoolUninitialized).status, s') ∧
      s'.output = s.output ∧
      s'.trace = s.trace ++ events ∧
      events =
        [Event.ExAllocatePoolUninitialized k.ExAllocatePoolUninitialized,
         Event.NmrRegisterProvider (registered_characteristics sc sr parameters)
           k.ExAllocatePoolUninitialized
           (k.NmrRegisterProvider (registered_characteristics sc sr parameters)
             k.ExAllocatePoolUninitialized).status] ++
        unregister_events k k.ExAllocatePoolUninitialized
          ((k.NmrRegisterProvider (registered_characteristics sc sr parameters)
            k.ExAllocatePoolUninitialized).handle.getD NULL) ∧
      (∀ location value, Event.store location value ∉ events) ∧
      events.count (Event.ExFreePool k.ExAllocatePoolUninitialized) = 1 ∧
      s'.pool k.ExAllocatePoolUninitialized = none := by
  rw [register_unfold k sc sr parameters provider_context s extension data program_info
    program_type halloc hextension hdata hinfo htype]
  dsimp only
  generalize k.NmrRegisterProvider _ k.ExAllocatePoolUninitialized = reply at hfail ⊢
  by_cases hs : k.NmrDeregisterProvider (reply.handle.getD NULL) = STATUS_PENDING
  · simp [hfail, register_Exit, net_ebpf_extension_program_info_provider_unregister, halloc,
      State.provider, NmrDeregisterProvider, NmrWaitForProviderDeregisterComplete, ExFreePool,
      State.log, State.set_block, unregister_events, hs, List.count_cons]
  · simp [hfail, register_Exit, net_ebpf_extension_program_info_provider_unregister, halloc,
      State.provider, NmrDeregisterProvider, NmrWaitForProviderDeregisterComplete, ExFreePool,
      State.log, State.set_block, unregister_events, hs, List.count_cons]

/-- Witness for C2: with the allocation at 128 and a registrar that answers
`STATUS_INSUFFICIENT_RESOURCES`, registration returns that status, leaves the output variables
alone and frees the block at 128 once. -/
theorem register_propagates_registrar_failure_witness :
    ∃ s', net_ebpf_extension_program_info_provider_register example_kernel_register_fails 72 40
        example_parameters OutPtr.valid example_state
        = some (STATUS_INSUFFICIENT_RESOURCES, s') ∧
      s'.output = example_state.output ∧
      s'.trace.count (Event.ExFreePool 128) = 1 ∧
      s'.pool 128 = none := by
  obtain ⟨s', events, h1, h2, h3, _, _, h6, h7⟩ :=
    register_propagates_registrar_failure example_kernel_register_fails 72 40
      example_parameters OutPtr.valid example_state
      { version := 0, size := 8, data := 40 } { program_info := 48 }
      { program_type_descriptor := { program_type := 0 } } 4660
      (by decide) rfl rfl rfl rfl (by decide)
  exact ⟨s', h1, h2, by rw [h3]; simpa [example_state] using h6, h7⟩

/-! ## Allocation failure -/

/-- C3. When `ExAllocatePoolUninitialized` returns NULL:
`net_ebpf_extension_program_info_provider_register` returns `STATUS_NO_MEMORY` and the only
thing that changed is the trace, which records the failed allocation (so no registrar call, no
store through `provider_context`, no free, the caller's program data and the pool as before);
`net_ebpf_extension_program_info_provider_attach_client` with two non-NULL output pointers
returns `STATUS_NO_MEMORY` with both output variables equal to NULL, the pool as before, and no
`ExFreePool` among the events it adds. -/
theorem allocation_failure_returns_no_memory (k : Kernel) (sc sr : Nat)
    (parameters : net_ebpf_extension_program_info_provider_parameters_t)
    (provider_context : OutPtr)
    (nmr_binding_handle : HANDLE) (attach_provider_context client_registration_instance
      client_binding_context client_dispatch : Ptr) (s : State)
    (halloc : k.ExAllocatePoolUninitialized = NULL) :
    net_ebpf_extension_program_info_provider_register k sc sr parameters provider_context s =
        some (STATUS_NO_MEMORY, s.log (Event.ExAllocatePoolUninitialized NULL)) ∧
    ∃ s', net_ebpf_extension_program_info_provider_attach_client k nmr_binding_handle
          attach_provider_context client_registration_instance client_binding_context
          client_dispatch OutPtr.valid OutPtr.valid s = some (STATUS_NO_MEMORY, s') ∧
      s'.output OutputLocation.provider_binding_context = NULL ∧
      s'.output OutputLocation.provider_dispatch = NULL ∧
      s'.output OutputLocation.provider_context = s.output OutputLocation.provider_context ∧
      s'.pool = s.pool ∧
      s'.trace = s.trace ++
        [Event.store OutputLocation.provider_binding_context NULL,
         Event.store OutputLocation.provider_dispatch NULL,
         Event.ExAllocatePoolUninitialized NULL] := by
  constructor
  · simp [net_ebpf_extension_program_info_provider_register, ExAllocatePoolUninitialized, halloc,
      register_Exit, net_ebpf_extension_program_info_provider_unregister, NT_SUCCESS,
      STATUS_NO_MEMORY]
  · simp [net_ebpf_extension_program_info_provider_attach_client, ExAllocatePoolUninitialized,
      halloc, attach_client_Exit, NT_SUCCESS, STATUS_NO_MEMORY, State.store, State.log]

/-- Witness for C3: in the kernel whose allocation fails, registration returns
`STATUS_NO_MEMORY` and only logs the failed allocation, and attach returns `STATUS_NO_MEMORY`
with both output variables NULL and the pool as before. -/
theorem allocation_failure_returns_no_memory_witness :
    example_kernel_no_memory.ExAllocatePoolUninitialized = NULL ∧
    net_ebpf_extension_program_info_provider_register example_kernel_no_memory 72 40
        example_parameters OutPtr.valid example_state =
      some (STATUS_NO_MEMORY, example_state.log (Event.ExAllocatePoolUninitialized NULL)) ∧
    ∃ s', net_ebpf_extension_program_info_provider_attach_client example_kernel_no_memory 9 64 56
          0 0 OutPtr.valid OutPtr.valid example_state = some (STATUS_NO_MEMORY, s') ∧
      s'.output OutputLocation.provider_binding_context = NULL ∧
      s'.output OutputLocation.provider_dispatch = NULL ∧
      s'.pool = example_state.pool := by
  obtain ⟨h1, s', h2, h3, h4, -, h6, -⟩ := allocation_failure_returns_no_memory
    example_kernel_no_memory 72 40 example_parameters OutPtr.valid 9 64 56 0 0 example_state rfl
  exact ⟨rfl, h1, s', h2, h3, h4, h6⟩

/-! ## Attach and detach -/

/-- C4. `net_ebpf_extension_program_info_provider_attach_client` with `provider_binding_context`
NULL or `provider_dispatch` NULL returns `STATUS_INVALID_PARAMETER` in an unchanged state:
nothing allocated, nothing freed, no output variable written, no event added. -/
theorem attach_client_null_output_is_invalid_parameter (k : Kernel)
    (nmr_binding_handle : HANDLE) (provider_context client_registration_instance
      client_binding_context client_dispatch : Ptr)
    (provider_binding_context provider_dispatch : OutPtr) (s : State)
    (h : provider_binding_context = OutPtr.null ∨ provider_dispatch = OutPtr.null) :
    net_ebpf_extension_program_info_provider_attach_client k nmr_binding_handle provider_context
        client_registration_instance client_binding_context client_dispatch
        provider_binding_context provider_dispatch s =
      some (STATUS_INVALID_PARAMETER, s) := by
  simp [net_ebpf_extension_program_info_provider_attach_client, h, attach_client_Exit,
    NT_SUCCESS, STATUS_INVALID_PARAMETER]

/-- Witness for C4: a NULL `provider_dispatch` next to a valid `provider_binding_context`. -/
theorem attach_client_null_output_is_invalid_parameter_witness :
    net_ebpf_extension_program_info_provider_attach_client example_kernel 9 64 56 0 0
        OutPtr.valid OutPtr.null example_state =
      some (STATUS_INVALID_PARAMETER, example_state) :=
  attach_client_null_output_is_invalid_parameter example_kernel 9 64 56 0 0
    OutPtr.valid OutPtr.null example_state (Or.inr rfl)

/-- C5. `net_ebpf_extension_program_info_provider_attach_client` with both output pointers
non-NULL, a successful allocation and a readable client registration instance returns
`STATUS_SUCCESS`; `*provider_binding_context` is the block the allocator returned, which holds
a client whose `nmr_binding_handle` is the argument and whose `client_module_id` is
`client_registration_instance->ModuleId->Guid`; `*provider_dispatch` is NULL; and the result is
the same for every `provider_context`, `client_binding_context` and `client_dispatch`. -/
theorem attach_client_success (k : Kernel) (nmr_binding_handle : HANDLE)
    (provider_context client_registration_instance client_binding_context client_dispatch : Ptr)
    (s : State) (registration_instance : NPI_REGISTRATION_INSTANCE) (module_id : NPI_MODULEID)
    (halloc : k.ExAllocatePoolUninitialized ≠ NULL)
    (hinstance : s.registration_instance client_registration_instance =
      some registration_instance)
    (hmodule : s.module_id registration_instance.ModuleId = some module_id) :
    ∃ s', net_ebpf_extension_program_info_provider_attach_client k nmr_binding_handle
          provider_context client_registration_instance client_binding_context client_dispatch
          OutPtr.valid OutPtr.valid s = some (STATUS_SUCCESS, s') ∧
      s'.output OutputLocation.provider_binding_context = k.ExAllocatePoolUninitialized ∧
      s'.client k.ExAllocatePoolUninitialized =
        some { nmr_binding_handle := nmr_binding_handle, client_module_id := module_id.Guid } ∧
      s'.output OutputLocation.provider_dispatch = NULL ∧
      s'.trace = s.trace ++
        [Event.store OutputLocation.provider_binding_context NULL,
         Event.store OutputLocation.provider_dispatch NULL,
         Event.ExAllocatePoolUninitialized k.ExAllocatePoolUninitialized,
         Event.store OutputLocation.provider_binding_context k.ExAllocatePoolUninitialized] ∧
      ∀ provider_context' client_binding_context' client_dispatch' : Ptr,
        net_ebpf_extension_program_info_provider_attach_client k nmr_binding_handle
          provider_context' client_registration_instance client_binding_context'
          client_dispatch' OutPtr.valid OutPtr.valid s = some (STATUS_SUCCESS, s') := by
  simp [net_ebpf_extension_program_info_provider_attach_client, ExAllocatePoolUninitialized,
    halloc, attach_client_Exit, NT_SUCCESS, STATUS_SUCCESS, State.store, State.log,
    State.set_block, State.client, hinstance, hmodule]

/-- Witness for C5: attaching in the example state with binding handle 9 and the registration
instance at 56, whose module id holds the GUID 119. -/
theorem attach_client_success_witness :
    ∃ s', net_ebpf_extension_program_info_provider_attach_client example_kernel 9 64 56 0 0
          OutPtr.valid OutPtr.valid example_state = some (STATUS_SUCCESS, s') ∧
      s'.output OutputLocation.provider_binding_context = 128 ∧
      s'.client 128 = some { nmr_binding_handle := 9, client_module_id := 119 } ∧
      s'.output OutputLocation.provider_dispatch = NULL := by
  obtain ⟨s', h1, h2, h3, h4, _⟩ := attach_client_success example_kernel 9 64 56 0 0
    example_state
    { Version := 0, Size := 40, NpiId := 16, ModuleId := 24, Number := 0,
      NpiSpecificCharacteristics := 0 }
    { Length := 24, Guid := 119 } (by decide) rfl rfl
  exact ⟨s', h1, h2, h3, h4⟩

/-- C10. `net_ebpf_extension_program_info_provider_detach_client`, for a binding context that
is NULL or a live allocation, returns `STATUS_SUCCESS` (so never `STATUS_INVALID_PARAMETER`);
for NULL the state is unchanged (nothing freed); otherwise the one event it adds is the
`ExFreePool` of the context, which is no longer live while every other allocation is
untouched. -/
theorem detach_client_always_succeeds (provider_binding_context : Ptr) (s : State)
    (h : provider_binding_context ≠ NULL → s.pool provider_binding_context ≠ none) :
    ∃ s', net_ebpf_extension_program_info_provider_detach_client provider_binding_context s =
        some (STATUS_SUCCESS, s') ∧
      STATUS_SUCCESS ≠ STATUS_INVALID_PARAMETER ∧
      (provider_binding_context = NULL → s' = s) ∧
      (provider_binding_context ≠ NULL →
        s'.trace = s.trace ++ [Event.ExFreePool provider_binding_context] ∧
        s'.pool provider_binding_context = none ∧
        ∀ q, q ≠ provider_binding_context → s'.pool q = s.pool q) := by
  by_cases hp : provider_binding_context = NULL
  · exact ⟨s, by simp [net_ebpf_extension_program_info_provider_detach_client, hp],
      by decide, fun _ => rfl, fun hn => absurd hp hn⟩
  · obtain ⟨b, hb⟩ := Option.ne_none_iff_exists'.mp (h hp)
    refine ⟨(s.set_block provider_binding_context none).log
      (Event.ExFreePool provider_binding_context), ?_, by decide, fun h0 => absurd h0 hp, ?_⟩
    · simp [net_ebpf_extension_program_info_provider_detach_client, hp, ExFreePool, hb]
    · intro _
      refine ⟨rfl, by simp [State.log, State.set_block], ?_⟩
      intro q hq
      simp [State.log, State.set_block, hq]

/-- Witness for C10: detaching the live block at 64 frees it. -/
theorem detach_client_always_succeeds_witness :
    example_state.pool 64 ≠ none ∧
    ∃ s', net_ebpf_extension_program_info_provider_detach_client 64 example_state =
        some (STATUS_SUCCESS, s') ∧
      s'.trace = [Event.ExFreePool 64] ∧ s'.pool 64 = none := by
  refine ⟨by decide, ?_⟩
  obtain ⟨s', h1, _, _, h4⟩ := detach_client_always_succeeds 64 example_state (fun _ => by decide)
  have h5 := h4 (by decide)
  exact ⟨s', h1, h5.1, h5.2.1⟩

/-- C6. Attach followed immediately by detach leaks nothing. For every call of
`net_ebpf_extension_program_info_provider_attach_client` that returns a success status, from a
state in which the block the allocator hands out is not already live, passing the returned
`*provider_binding_context` to `net_ebpf_extension_program_info_provider_detach_client` returns
`STATUS_SUCCESS`, the pool (hence the set of live allocations) is what it was before the attach,
and the events of the two calls contain one allocation followed by one `ExFreePool` of the
allocated block. -/
theorem attach_then_detach_leaks_nothing (k : Kernel) (nmr_binding_handle : HANDLE)
    (provider_context client_registration_instance client_binding_context client_dispatch : Ptr)
    (provider_binding_context provider_dispatch : OutPtr) (s s1 : State) (status : NTSTATUS)
    (hfresh : s.pool k.ExAllocatePoolUninitialized = none)
    (hattach : net_ebpf_extension_program_info_provider_attach_client k nmr_binding_handle
      provider_context client_registration_instance client_binding_context client_dispatch
      provider_binding_context provider_dispatch s = some (status, s1))
    (hsuccess : NT_SUCCESS status = true) :
    ∃ s2, net_ebpf_extension_program_info_provider_detach_client
          (s1.output OutputLocation.provider_binding_context) s1 = some (STATUS_SUCCESS, s2) ∧
      s2.pool = s.pool ∧
      s2.live = s.live ∧
      s2.trace = s.trace ++
        [Event.store OutputLocation.provider_binding_context NULL,
         Event.store OutputLocation.provider_dispatch NULL,
         Event.ExAllocatePoolUninitialized k.ExAllocatePoolUninitialized,
         Event.store OutputLocation.provider_binding_context k.ExAllocatePoolUninitialized,
         Event.ExFreePool k.ExAllocatePoolUninitialized] := by
  cases provider_binding_context with
  | null =>
    simp [net_ebpf_extension_program_info_provider_attach_client, attach_client_Exit,
      NT_SUCCESS, STATUS_INVALID_PARAMETER] at hattach
    obtain ⟨rfl, -⟩ := hattach
    simp [NT_SUCCESS] at hsuccess
  | valid =>
    cases provider_dispatch with
    | null =>
      simp [net_ebpf_extension_program_info_provider_attach_client, attach_client_Exit,
        NT_SUCCESS, STATUS_INVALID_PARAMETER] at hattach
      obtain ⟨rfl, -⟩ := hattach
      simp [NT_SUCCESS] at hsuccess
    | valid =>
      by_cases halloc : k.ExAllocatePoolUninitialized = NULL
      · simp [net_ebpf_extension_program_info_provider_attach_client,
          ExAllocatePoolUninitialized, halloc, attach_client_Exit, NT_SUCCESS,
          STATUS_NO_MEMORY, State.store, State.log] at hattach
        obtain ⟨rfl, -⟩ := hattach
        simp [NT_SUCCESS] at hsuccess
      · cases hinstance : s.registration_instance client_registration_instance with
        | none =>
          simp [net_ebpf_extension_program_info_provider_attach_client,
            ExAllocatePoolUninitialized, halloc, State.store, State.log, State.set_block,
            State.client, hinstance] at hattach
        | some registration_instance =>
          cases hmodule : s.module_id registration_instance.ModuleId with
          | none =>
            simp [net_ebpf_extension_program_info_provider_attach_client,
              ExAllocatePoolUninitialized, halloc, State.store, State.log, State.set_block,
              State.client, hinstance, hmodule] at hattach
          | some module_id =>
            simp [net_ebpf_extension_program_info_provider_attach_client,
              ExAllocatePoolUninitialized, halloc, attach_client_Exit, NT_SUCCESS,
              STATUS_SUCCESS, State.store, State.log, State.set_block, State.client,
              hinstance, hmodule] at hattach
            obtain ⟨rfl, rfl⟩ := hattach
            have hpool : (fun q => if q = k.ExAllocatePoolUninitialized then none
                else s.pool q) = s.pool := by
              funext q
              by_cases hq : q = k.ExAllocatePoolUninitialized
              · simp [hq, hfresh]
              · simp [hq]
            simp [net_ebpf_extension_program_info_provider_detach_client, halloc, ExFreePool,
              State.log, State.set_block, State.live, ite_absorb, STATUS_SUCCESS, hpool]

/-- Witness for C6: attach then detach in the example state, where 128 is not live. -/
theorem attach_then_detach_leaks_nothing_witness :
    example_state.pool example_kernel.ExAllocatePoolUninitialized = none ∧
    ∃ status s1 s2,
      net_ebpf_extension_program_info_provider_attach_client example_kernel 9 64 56 0 0
          OutPtr.valid OutPtr.valid example_state = some (status, s1) ∧
      NT_SUCCESS status = true ∧
      net_ebpf_extension_program_info_provider_detach_client
          (s1.output OutputLocation.provider_binding_context) s1 = some (STATUS_SUCCESS, s2) ∧
      s2.pool = example_state.pool := by
  obtain ⟨r, hr, hs⟩ : ∃ r, net_ebpf_extension_program_info_provider_attach_client
      example_kernel 9 64 56 0 0 OutPtr.valid OutPtr.valid example_state = some r ∧
      NT_SUCCESS r.1 = true := ⟨_, rfl, rfl⟩
  obtain ⟨status, s1⟩ := r
  obtain ⟨s2, h1, h2, -⟩ := attach_then_detach_leaks_nothing example_kernel 9 64 56 0 0
    OutPtr.valid OutPtr.valid example_state s1 status rfl hr hs
  exact ⟨rfl, status, s1, s2, hr, hs, h1, h2⟩

/-! ## Hook client rundown -/

/-- C7. `net_ebpf_extension_hook_client_enter_rundown`, for every hook client and every
execution type: when the client's rundown guard is active it returns true, the entrant count is
one more than before and nothing else of the client changes; when rundown has occurred (guard
inactive) it returns false and the client, its count and flag included, is unchanged. -/
theorem enter_rundown_counts_entrant_iff_active (hook_client : net_ebpf_extension_hook_client_t)
    (execution_type : net_ebpf_extension_hook_execution_t) :
    (hook_client.rundown.active = true →
      net_ebpf_extension_hook_client_enter_rundown hook_client execution_type =
        (true, { hook_client with
          rundown := { active := true, count := hook_client.rundown.count + 1 } })) ∧
    (hook_client.rundown.active = false →
      net_ebpf_extension_hook_client_enter_rundown hook_client execution_type =
        (false, hook_client)) := by
  constructor
  · intro h
    simp [net_ebpf_extension_hook_client_enter_rundown, rundown_enter, h]
  · intro h
    simp [net_ebpf_extension_hook_client_enter_rundown, rundown_enter, h]

/-- Witness for C7: entering a client with an active guard and two entrants, at passive level,
returns true and leaves three entrants. -/
theorem enter_rundown_counts_entrant_iff_active_witness :
    net_ebpf_extension_hook_client_enter_rundown example_hook_client
        net_ebpf_extension_hook_execution_t.EXECUTION_PASSIVE =
      (true, { example_hook_client with rundown := { active := true, count := 3 } }) :=
  (enter_rundown_counts_entrant_iff_active example_hook_client
    net_ebpf_extension_hook_execution_t.EXECUTION_PASSIVE).1 rfl

/-! ## Successful registration -/

/-- C9. For every call of `net_ebpf_extension_program_info_provider_register` that returns a
success status: the events it adds are the allocation, one `NmrRegisterProvider` call and the
store of the provider through `provider_context`; the characteristics handed to the registrar
have `ProviderRegistrationInstance.NpiId = parameters->program_type`,
`ModuleId = parameters->provider_module_id` and
`NpiSpecificCharacteristics = parameters->provider_data`; the program information reached through
`parameters->provider_data` has `program_type_descriptor.program_type` equal to the GUID at
`parameters->program_type`; and `*provider_context` is the allocated provider, which holds these
characteristics and, as `nmr_provider_handle`, the handle the registrar stored (the zeroed
member if it stored none). -/
theorem register_success_publishes_program_type (k : Kernel) (sc sr : Nat)
    (parameters : net_ebpf_extension_program_info_provider_parameters_t)
    (provider_context : OutPtr) (s s' : State) (status : NTSTATUS)
    (hrun : net_ebpf_extension_program_info_provider_register k sc sr parameters
      provider_context s = some (status, s'))
    (hsuccess : NT_SUCCESS status = true) :
    ∃ (characteristics : NPI_PROVIDER_CHARACTERISTICS) (reply : RegisterReply)
      (extension : ebpf_extension_data_t) (data : ebpf_program_data_t)
      (program_info : ebpf_program_info_t) (program_type : GUID),
      reply = k.NmrRegisterProvider characteristics k.ExAllocatePoolUninitialized ∧
      status = reply.status ∧
      s'.trace = s.trace ++
        [Event.ExAllocatePoolUninitialized k.ExAllocatePoolUninitialized,
         Event.NmrRegisterProvider characteristics k.ExAllocatePoolUninitialized status,
         Event.store OutputLocation.provider_context k.ExAllocatePoolUninitialized] ∧
      characteristics.ProviderRegistrationInstance.NpiId = parameters.program_type ∧
      characteristics.ProviderRegistrationInstance.ModuleId = parameters.provider_module_id ∧
      characteristics.ProviderRegistrationInstance.NpiSpecificCharacteristics =
        parameters.provider_data ∧
      s'.guid parameters.program_type = some program_type ∧
      s'.extension_data parameters.provider_data = some extension ∧
      s'.program_data extension.data = some data ∧
      s'.program_info data.program_info = some program_info ∧
      program_info.program_type_descriptor.program_type = program_type ∧
      k.ExAllocatePoolUninitialized ≠ NULL ∧
      s'.output OutputLocation.provider_context = k.ExAllocatePoolUninitialized ∧
      s'.provider k.ExAllocatePoolUninitialized =
        some { characteristics := characteristics
               nmr_provider_handle := reply.handle.getD NULL } := by
  by_cases halloc : k.ExAllocatePoolUninitialized = NULL
  · simp [net_ebpf_extension_program_info_provider_register, ExAllocatePoolUninitialized, halloc,
      register_Exit, net_ebpf_extension_program_info_provider_unregister, NT_SUCCESS,
      STATUS_NO_MEMORY] at hrun
    obtain ⟨rfl, -⟩ := hrun
    simp [NT_SUCCESS] at hsuccess
  cases hextension : s.extension_data parameters.provider_data with
  | none =>
    simp [net_ebpf_extension_program_info_provider_register, ExAllocatePoolUninitialized, halloc,
      State.provider, State.set_block, State.log, hextension] at hrun
  | some extension =>
  cases htype : s.guid parameters.program_type with
  | none =>
    simp [net_ebpf_extension_program_info_provider_register, ExAllocatePoolUninitialized, halloc,
      State.provider, State.set_block, State.log, hextension, htype] at hrun
  | some program_type =>
  cases hdata : s.program_data extension.data with
  | none =>
    simp [net_ebpf_extension_program_info_provider_register, ExAllocatePoolUninitialized, halloc,
      State.provider, State.set_block, State.log, hextension, htype, hdata] at hrun
  | some data =>
  cases hinfo : s.program_info data.program_info with
  | none =>
    simp [net_ebpf_extension_program_info_provider_register, ExAllocatePoolUninitialized, halloc,
      State.provider, State.set_block, State.log, hextension, htype, hdata, hinfo] at hrun
  | some program_info =>
  rw [register_unfold k sc sr parameters provider_context s extension data program_info
    program_type halloc hextension hdata hinfo htype] at hrun
  dsimp only at hrun
  refine ⟨registered_characteristics sc sr parameters, _, extension, data,
    { program_type_descriptor := { program_type := program_type } }, program_type, rfl, ?_⟩
  generalize k.NmrRegisterProvider _ k.ExAllocatePoolUninitialized = reply at hrun ⊢
  cases hreply : NT_SUCCESS reply.status with
  | false =>
    simp only [hreply, Bool.not_false, if_true, register_Exit, Option.bind_eq_bind,
      Option.pure_def] at hrun
    obtain ⟨s2, -, h2⟩ := Option.bind_eq_some.mp hrun
    simp only [Option.some.injEq, Prod.mk.injEq] at h2
    obtain ⟨rfl, -⟩ := h2
    rw [hreply] at hsuccess
    cases hsuccess
  | true =>
    cases provider_context with
    | null => simp [hreply, State.store] at hrun
    | valid =>
      simp [hreply, State.store, State.log, register_Exit] at hrun
      obtain ⟨rfl, rfl⟩ := hrun
      simp [registered_characteristics, State.provider, hextension, hdata, htype, halloc]

/-- Witness for C9: registration in the example state with the kernel in which everything
succeeds returns a success status and publishes the provider at 128 with the handle 200 and the
NPI id 16; the program information it reaches holds the GUID found at 16. -/
theorem register_success_publishes_program_type_witness :
    ∃ (status : NTSTATUS) (s' : State) (characteristics : NPI_PROVIDER_CHARACTERISTICS)
      (data : ebpf_program_data_t) (program_info : ebpf_program_info_t) (program_type : GUID),
      net_ebpf_extension_program_info_provider_register example_kernel 72 40 example_parameters
        OutPtr.valid example_state = some (status, s') ∧
      NT_SUCCESS status = true ∧
      s'.output OutputLocation.provider_context = 128 ∧
      s'.provider 128 =
        some { characteristics := characteristics, nmr_provider_handle := 200 } ∧
      characteristics.ProviderRegistrationInstance.NpiId = 16 ∧
      s'.guid 16 = some program_type ∧
      s'.program_info data.program_info = some program_info ∧
      program_info.program_type_descriptor.program_type = program_type := by
  obtain ⟨r, hr, hs⟩ : ∃ r, net_ebpf_extension_program_info_provider_register example_kernel
      72 40 example_parameters OutPtr.valid example_state = some r ∧
      NT_SUCCESS r.1 = true := ⟨_, rfl, rfl⟩
  obtain ⟨status, s'⟩ := r
  obtain ⟨c, reply, extension, data, program_info, program_type, h1, -, -, h4, -, -, h7, -, -,
    h10, h11, -, h13, h14⟩ := register_success_publishes_program_type example_kernel 72 40
      example_parameters OutPtr.valid example_state s' status hr hs
  subst h1
  exact ⟨status, s', c, data, program_info, program_type, hr, hs, h13, h14, h4, h7, h10, h11⟩

/-! ## Registration failure and the registrar -/

/-- C8, evaluated. In the example state, with the allocation at 128 and a registrar that refuses
the registration with `STATUS_INSUFFICIENT_RESOURCES` without storing a handle,
`net_ebpf_extension_program_info_provider_register` returns that status after calling
`NmrDeregisterProvider` on the NULL handle left by `memset`; and when that deregistration
answers `STATUS_PENDING` it also calls `NmrWaitForProviderDeregisterComplete` on the NULL
handle. No registration ever produced this handle. -/
theorem register_failure_deregisters_unregistered_handle :
    (∃ s', net_ebpf_extension_program_info_provider_register example_kernel_register_fails 72 40
        example_parameters OutPtr.valid example_state
        = some (STATUS_INSUFFICIENT_RESOURCES, s') ∧
      s'.trace =
        [Event.ExAllocatePoolUninitialized 128,
         Event.NmrRegisterProvider (registered_characteristics 72 40 example_parameters) 128
           STATUS_INSUFFICIENT_RESOURCES,
         Event.NmrDeregisterProvider NULL STATUS_INVALID_HANDLE,
         Event.ExFreePool 128]) ∧
    (∃ s', net_ebpf_extension_program_info_provider_register
        example_kernel_register_fails_pending 72 40 example_parameters OutPtr.valid example_state
        = some (STATUS_INSUFFICIENT_RESOURCES, s') ∧
      s'.trace =
        [Event.ExAllocatePoolUninitialized 128,
         Event.NmrRegisterProvider (registered_characteristics 72 40 example_parameters) 128
           STATUS_INSUFFICIENT_RESOURCES,
         Event.NmrDeregisterProvider NULL STATUS_PENDING,
         Event.NmrWaitForProviderDeregisterComplete NULL,
         Event.ExFreePool 128]) :=
  ⟨⟨_, rfl, rfl⟩, ⟨_, rfl, rfl⟩⟩

end NetEbpfExt
